import Mathlib

/-!
Verification of the `ios_toolkit` repository: a shallow embedding of the
device-discovery, preflight, IPSW-validation and restore-orchestration code
(`ios_toolkit/device.py`, `ios_toolkit/recovery.py`, `ios_toolkit/ipsw.py`,
`ios_toolkit/restore.py`) together with proofs of the specification claims.

External effects (subprocess calls, the filesystem, the wall clock, optional
third-party libraries) are modelled as explicit environment records; the pure
logic of each Python function is translated directly.
-/

/-! ### Python values and truthiness (`device.py` helpers) -/

/-- A Python value as it occurs in the raw property maps handled by
`device.py` (`bool`, `int`/`float`, `str`, `bytes`). -/
inductive PyVal where
  | pyBool : Bool → PyVal
  | pyInt : Int → PyVal
  | pyStr : String → PyVal
  | pyBytes : List Nat → PyVal
deriving DecidableEq, Repr

/-- Python truthiness of a value (`bool(v)`). -/
def pyTruthy : PyVal → Bool
  | .pyBool b => b
  | .pyInt n => n != 0
  | .pyStr s => s != ""
  | .pyBytes bs => bs != []

/-- Truthiness of an optional value: `None` is falsy. -/
def optTruthy : Option PyVal → Bool
  | none => false
  | some v => pyTruthy v

/-- Truthiness of an optional string (`None` and `""` are falsy). -/
def optStrTruthy : Option String → Bool
  | none => false
  | some s => s != ""

/-- Lookup in a raw property map (`raw.get(key)`). -/
def rawGet (raw : List (String × PyVal)) (k : String) : Option PyVal :=
  (raw.find? (fun kv => kv.1 == k)).map (·.2)

/-- `a or b` on two optional Python values: the first operand if truthy,
otherwise the second operand. -/
def pyOrVal (a b : Option PyVal) : Option PyVal :=
  if optTruthy a then a else b

/-- View an optional Python value as an optional string (the fields fed to the
`Device` model are strings in every observed raw map). -/
def asStr : Option PyVal → Option String
  | some (.pyStr s) => some s
  | _ => none

/-- Hex digit for a value below 16. -/
def hexDigit (n : Nat) : Char :=
  if n < 10 then Char.ofNat (48 + n) else Char.ofNat (87 + n)

/-- `bytes.hex()`: two lowercase hex digits per byte. -/
def bytesHex (bs : List Nat) : String :=
  String.mk (bs.foldr (fun b acc => hexDigit (b / 16 % 16) :: hexDigit (b % 16) :: acc) [])

/-! ### Character-level matching: the regular expressions of `STEP_PATTERNS`
and `parse_irecovery_q`, compiled by hand.  `\w` is `[a-zA-Z0-9_]`, `\s` is
ASCII whitespace, and all patterns are applied with `re.IGNORECASE`, which we
realise by lowering the line first. -/

/-- `\w`: ASCII letters, digits and underscore. -/
def isWordChar (c : Char) : Bool :=
  c.isAlphanum || c == '_'

/-- `\s`: ASCII whitespace as matched by Python's `re`. -/
def isPySpace (c : Char) : Bool :=
  c == ' ' || c == '\t' || c == '\n' || c == '\r' || c == '\x0b' || c == '\x0c'

/-- Does `needle` occur at the head of `s`? -/
def matchesStart : List Char → List Char → Bool
  | [], _ => true
  | _ :: _, [] => false
  | a :: as, b :: bs => a == b && matchesStart as bs

/-- Consume `needle` from the head of `s`, returning the remainder. -/
def dropStart : List Char → List Char → Option (List Char)
  | [], s => some s
  | _ :: _, [] => none
  | a :: as, b :: bs => if a == b then dropStart as bs else none

/-- Does `needle` occur at the head of `s` with a word boundary right after
it (`needle\b`)? -/
def matchesStartBounded : List Char → List Char → Bool
  | [], [] => true
  | [], c :: _ => !isWordChar c
  | _ :: _, [] => false
  | a :: as, b :: bs => a == b && matchesStartBounded as bs

/-- Substring search (`needle` anywhere in `s`). -/
def containsSub (needle : List Char) : List Char → Bool
  | [] => matchesStart needle []
  | s@(_ :: rest) => matchesStart needle s || containsSub needle rest

/-- Search for `\bneedle`: an occurrence whose preceding character (if any)
is not a word character.  `prevIsWord` records whether the previous character
was a word character; the start of the string is a boundary. -/
def searchBounded (needle : List Char) (prevIsWord : Bool) : List Char → Bool
  | [] => false
  | c :: rest =>
      (!prevIsWord && matchesStart needle (c :: rest)) ||
        searchBounded needle (isWordChar c) rest

/-- Search for `\bneedle\b`: both ends on a word boundary. -/
def searchBoundedWord (needle : List Char) (prevIsWord : Bool) : List Char → Bool
  | [] => false
  | c :: rest =>
      (!prevIsWord && matchesStartBounded needle (c :: rest)) ||
        searchBoundedWord needle (isWordChar c) rest

/-- Drop leading ASCII whitespace. -/
def skipSpaces : List Char → List Char
  | [] => []
  | c :: rest => if isPySpace c then skipSpaces rest else c :: rest

/-- Match `sending\s+restoreimage` at the head of `s` (the lowered form of
`Sending\s+RestoreImage`); since `restoreimage` does not start with
whitespace, greedy consumption of the whitespace run is exact. -/
def matchSendRestoreAt (s : List Char) : Bool :=
  match dropStart ("sending".toList) s with
  | none => false
  | some rest =>
      match rest with
      | [] => false
      | c :: rest2 =>
          isPySpace c &&
            (dropStart ("restoreimage".toList) (skipSpaces rest2)).isSome

/-- Search `Sending\s+RestoreImage` anywhere in the (lowered) line. -/
def searchSendRestore : List Char → Bool
  | [] => false
  | s@(_ :: rest) => matchSendRestoreAt s || searchSendRestore rest

/-- Lowercase a line, as `re.IGNORECASE` matching of our all-lowercase
needles. -/
def lowerChars (line : String) : List Char :=
  line.toList.map Char.toLower

/-! Structural (kernel-reducible) replacements for the string methods the
Python code uses: `str.lower`, `str.strip`, `str.split`, `str.join`,
`str.endswith`. -/

/-- `str.lower()`. -/
def pyLower (s : String) : String := String.mk (lowerChars s)

/-- Drop leading whitespace characters. -/
def dropWs : List Char → List Char
  | [] => []
  | c :: r => if isPySpace c then dropWs r else c :: r

/-- `str.strip()`: remove leading and trailing whitespace. -/
def pyStrip (s : String) : String :=
  String.mk ((dropWs (dropWs s.toList.reverse).reverse))

/-- Split a character list at every occurrence of `sep` (like
`str.split(sep)`: n+1 groups for n separators). -/
def splitOnChar (sep : Char) : List Char → List (List Char)
  | [] => [[]]
  | c :: r =>
      match splitOnChar sep r with
      | [] => [[c]]
      | g :: gs => if c == sep then [] :: g :: gs else (c :: g) :: gs

/-- Join character groups with a separator character. -/
def joinChar (sep : Char) : List (List Char) → List Char
  | [] => []
  | [g] => g
  | g :: gs => g ++ sep :: joinChar sep gs

/-- `sep.join(xs)` on strings. -/
def pyJoin (sep : String) : List String → String
  | [] => ""
  | [x] => x
  | x :: xs => x ++ sep ++ pyJoin sep xs

/-- `s.endswith(suffixStr)`. -/
def strEndsWith (s suffixStr : String) : Bool :=
  matchesStart suffixStr.toList.reverse s.toList.reverse

/-! ### `restore.py`: `STEP_PATTERNS` and the streaming step extractor -/

/-- The ordered milestone names of `STEP_PATTERNS` in `restore.py`. -/
def STEP_PATTERN_NAMES : List String :=
  ["extract", "send_restore_image", "restore", "flash", "verify", "reboot", "wipe"]

/-- Does the pattern registered under `name` in `STEP_PATTERNS` match `line`?
The regexes are `\bextract`, `Sending\s+RestoreImage`, `\brestore\b`,
`flashing`, `verif`, `reboot`, `wipe|erase`, all case-insensitive. -/
def stepPatternMatches (name : String) (line : String) : Bool :=
  let s := lowerChars line
  if name == "extract" then searchBounded ("extract".toList) false s
  else if name == "send_restore_image" then searchSendRestore s
  else if name == "restore" then searchBoundedWord ("restore".toList) false s
  else if name == "flash" then containsSub ("flashing".toList) s
  else if name == "verify" then containsSub ("verif".toList) s
  else if name == "reboot" then containsSub ("reboot".toList) s
  else if name == "wipe" then containsSub ("wipe".toList) s || containsSub ("erase".toList) s
  else false

/-- A `models.Step`. -/
structure Step where
  name : String
  ok : Bool
  detail : Option String := none
deriving DecidableEq, Repr

/-- Inner loop of `_stream_process_output` on one line: for each pattern, in
table order, append a `Step` if the name has not fired yet and the pattern
matches.  The fired names are exactly the names of the accumulated steps. -/
def lineFire (fired : List Step) (line : String) : List Step :=
  STEP_PATTERN_NAMES.foldl
    (fun fired nm =>
      if (fired.map (·.name)).contains nm then fired
      else if stepPatternMatches nm line then fired ++ [⟨nm, true, none⟩]
      else fired)
    fired

/-- The milestone `Step`s produced by `_stream_process_output` from a stream
of output lines (the `progress_steps` list). -/
def extractSteps (lines : List String) : List Step :=
  lines.foldl lineFire []

/-! ### `recovery.py`: `parse_irecovery_q` -/

/-- `parse_irecovery_q` from `recovery.py`: heuristic scan of the
`irecovery -q` output.  It returns a *string* (`"dfu"`, `"recovery"`,
`"normal"` or `"unknown"`), matching `\bDFU\b`, `\bRecovery\b`, `\bNormal\b`
case-insensitively in that order. -/
def parse_irecovery_q (text : String) : String :=
  let payload := lowerChars text
  if searchBoundedWord ("dfu".toList) false payload then "dfu"
  else if searchBoundedWord ("recovery".toList) false payload then "recovery"
  else if searchBoundedWord ("normal".toList) false payload then "normal"
  else "unknown"

/-! ### `device.py`: errors, discovery, normalization, `get_info`,
`list_devices`, `detect_dfu` -/

/-- The exceptions that the `device.py` code can raise.  The first four model
the `DeviceError` hierarchy (`DeviceToolMissingError`, `NoDevicesError`,
`MultipleDevicesError`, plain `DeviceError`); `attributeError` models a
Python `AttributeError`, which is *not* a `DeviceError`. -/
inductive PyError where
  | toolMissing : List String → PyError
  | noDevices : PyError
  | multipleDevices : List String → PyError
  | deviceError : String → Nat → PyError
  | attributeError : String → PyError
deriving DecidableEq, Repr

deriving instance DecidableEq for Except

/-- `CommandResult` from `device.py` (`_call`'s return value). -/
structure CommandResult where
  code : Int
  stdout : String
  stderr : String := ""
deriving DecidableEq, Repr

/-- Lexicographic comparison of character lists (Python string `<`). -/
def charListLt : List Char → List Char → Bool
  | [], [] => false
  | [], _ :: _ => true
  | _ :: _, [] => false
  | a :: as, b :: bs => decide (a < b) || (a == b && charListLt as bs)

/-- Python string `<`. -/
def strLt (s t : String) : Bool := charListLt s.toList t.toList

/-- Insert a string into a sorted list. -/
def insertSorted (s : String) : List String → List String
  | [] => [s]
  | t :: ts => if strLt s t then s :: t :: ts else t :: insertSorted s ts

/-- Python `sorted` on a list of strings. -/
def sortStrings (l : List String) : List String := l.foldr insertSorted []

/-- Python `sorted(set(l))`: deduplicate, then sort. -/
def sortedUnique (l : List String) : List String := sortStrings l.eraseDups

/-- A discovery entry as produced by `_discover_devices`: a dict with the
candidate's udid and a connection hint (the `source` key is never read
downstream). -/
structure DiscEntry where
  udid : String
  connection : Option String := none
deriving DecidableEq, Repr

/-- Environment for `device.py`: the outcomes of discovery backends and of
the external tools consulted by `get_info`, `list_devices` and `detect_dfu`.
`pymdInfo u` is the raw map produced by `_get_info_via_pymobiledevice3(u)`
(`none` on import failure or any exception), `ideviceinfoRun u` the
`CommandResult` of running `ideviceinfo` (with `-u u` when a udid is given),
and `irecoveryQ` the `CommandResult` of `irecovery -q`. -/
structure DeviceEnv where
  discovered : List DiscEntry
  missingTools : List String := []
  anyTool : Bool := true
  pymdInfo : String → Option (List (String × PyVal)) := fun _ => none
  haveIdeviceinfo : Bool := false
  ideviceinfoRun : Option String → CommandResult := fun _ => ⟨127, "", ""⟩
  haveIrecovery : Bool := false
  irecoveryQ : CommandResult := ⟨127, "", ""⟩

/-- Python `str` has no `.get` method: attribute lookup raises
`AttributeError`.  `detect_dfu` calls `.get("mode", "")` on the string
returned by `parse_irecovery_q`. -/
def strDotGet (_s _key _dflt : String) : Except PyError String :=
  .error (.attributeError "str object has no attribute get")

/-- `detect_dfu` from `device.py`.  Its docstring promises it never raises;
the embedding returns `Except` so that the `AttributeError` arising from
`parse_irecovery_q`'s string result is visible. -/
def detect_dfu (env : DeviceEnv) : Except PyError Bool :=
  if !env.haveIrecovery then .ok false
  else if !(env.irecoveryQ.code == 0) || env.irecoveryQ.stdout == "" then .ok false
  else
    match strDotGet (parse_irecovery_q env.irecoveryQ.stdout) "mode" "" with
    | .error e => .error e
    | .ok m => .ok (pyLower (pyStrip m) == "dfu")

/-- Lookup in a string-valued dict. -/
def dictGet (d : List (String × String)) (k : String) : Option String :=
  (d.find? (fun kv => kv.1 == k)).map (·.2)

/-- Python dict assignment `d[k] = v`: overwrite in place, else append. -/
def dictSet (d : List (String × String)) (k v : String) : List (String × String) :=
  if d.any (fun kv => kv.1 == k) then
    d.map (fun kv => if kv.1 == k then (k, v) else kv)
  else d ++ [(k, v)]

/-- One line of `_parse_kv_text`: strip, skip blank or colon-free lines, and
split at the first colon into a stripped key/value pair. -/
def parseKvLine (data : List (String × String)) (rawLine : String) : List (String × String) :=
  let line := pyStrip rawLine
  match splitOnChar ':' line.toList with
  | [] => data
  | [_] => data
  | key :: rest =>
      if line == "" then data
      else dictSet data (pyStrip (String.mk key)) (pyStrip (String.mk (joinChar ':' rest)))

/-- `_parse_kv_text` from `device.py`: the line is skipped when blank or
colon-free (a single split group); otherwise it is split at the first colon.
(Python's `splitlines` also accepts `\r\n`; the stray `\r` is removed by
`strip`, so splitting on `\n` is equivalent.) -/
def _parse_kv_text (text : String) : List (String × String) :=
  ((splitOnChar '\n' text.toList).map String.mk).foldl parseKvLine []

/-- The local `_truthy` of `_detect_mode`: `bool` as itself, numbers by
`!= 0`, strings by stripped-lowercase membership in `{"1","true","yes"}`,
everything else falsy. -/
def _truthy : Option PyVal → Bool
  | some (.pyBool b) => b
  | some (.pyInt n) => n != 0
  | some (.pyStr s) =>
      let t := pyLower (pyStrip s)
      t == "1" || t == "true" || t == "yes"
  | some (.pyBytes _) => false
  | none => false

/-- `_detect_mode` from `device.py`.  Note the second disjunct of the DFU
test: `_truthy(raw.get("DeviceMode") == "dfu")` applies `_truthy` to the
*boolean* result of the comparison. -/
def _detect_mode (raw : List (String × PyVal)) : String :=
  if _truthy (rawGet raw "DFUMode") || (rawGet raw "DeviceMode" == some (.pyStr "dfu")) then "dfu"
  else if _truthy (rawGet raw "RecoveryMode") || _truthy (rawGet raw "IsInRecoveryMode") then "recovery"
  else if optTruthy (rawGet raw "ProductVersion") then "normal"
  else "unknown"

/-- `_normalize_connection` from `device.py`. -/
def _normalize_connection (value : Option String) : String :=
  match value with
  | none => "unknown"
  | some v =>
      let normalized := pyLower (pyStrip v)
      if normalized == "usb" || normalized == "wifi" then normalized else "unknown"

/-- `_json_safe` from `device.py` on the flat raw maps used here: `bytes`
become their hex string; other scalars pass through.  (The Python original
also recurses into containers, which never occur in the claims.) -/
def _json_safe : PyVal → PyVal
  | .pyBytes bs => .pyStr (bytesHex bs)
  | v => v

/-- `models.Device`.  `udid` is optional only because the DFU placeholder in
`list_devices` is built with `model_construct`, bypassing validation. -/
structure Device where
  udid : Option String := none
  product_type : Option String := none
  product_version : Option String := none
  device_name : Option String := none
  connection : String := "unknown"
  mode : String := "unknown"
  details : List (String × PyVal) := []
deriving DecidableEq, Repr

/-- `raw.get(k1) or raw.get(k2)` viewed as an optional string. -/
def pyOr2 (a b : Option PyVal) : Option String := asStr (pyOrVal a b)

/-- `raw.get(k1) or raw.get(k2) or fallback` where the fallback is an
optional string parameter. -/
def pyOr3 (a b : Option PyVal) (c : Option String) : Option String :=
  if optTruthy a then asStr a else if optTruthy b then asStr b else c

/-- The argument of `_normalize_connection` in `_normalize_info`:
`raw.get("ConnectionType") or connection`. -/
def connArg (raw : List (String × PyVal)) (connection : Option String) : Option String :=
  if optTruthy (rawGet raw "ConnectionType") then asStr (rawGet raw "ConnectionType")
  else connection

/-- `_normalize_info` composed with `Device.model_validate`
(`_build_device` in `device.py`). -/
def _build_device (raw : List (String × PyVal)) (udid : Option String)
    (connection : Option String) : Device :=
  { udid := pyOr3 (rawGet raw "UniqueDeviceID") (rawGet raw "udid") udid
    product_type := pyOr2 (rawGet raw "ProductType") (rawGet raw "product_type")
    product_version := pyOr2 (rawGet raw "ProductVersion") (rawGet raw "product_version")
    device_name := pyOr2 (rawGet raw "DeviceName") (rawGet raw "device_name")
    mode := _detect_mode raw
    connection := _normalize_connection (connArg raw connection)
    details := raw.map (fun kv => (kv.1, _json_safe kv.2)) }

/-- `_get_info_via_ideviceinfo` from `device.py`. -/
def _get_info_via_ideviceinfo (env : DeviceEnv) (udid : Option String) :
    Option (List (String × String)) :=
  if !env.haveIdeviceinfo then none
  else
    let result := env.ideviceinfoRun udid
    if !(result.code == 0) || pyStrip result.stdout == "" then none
    else
      let data := _parse_kv_text result.stdout
      let data :=
        if optStrTruthy udid && !(optStrTruthy (dictGet data "UniqueDeviceID")) then
          dictSet data "UniqueDeviceID" (udid.getD "")
        else data
      some data

/-- The resolution prefix of `get_info` (`device.py` lines 311–319): when
called without a udid and with discovery allowed, discovery decides the
target; zero candidates raise `NoDevicesError` (or `DeviceToolMissingError`
when no backend was usable), one candidate supplies its udid, several raise
`MultipleDevicesError` with the sorted identifiers. -/
def resolveTargetUdid (env : DeviceEnv) (udid0 : Option String)
    (allowDiscovery : Bool) : Except PyError (Option String) :=
  if udid0 == none && allowDiscovery then
    match env.discovered with
    | [] =>
        if env.missingTools != [] && !env.anyTool then
          .error (.toolMissing (sortedUnique env.missingTools))
        else .error .noDevices
    | [e] => .ok (some e.udid)
    | es => .error (.multipleDevices (sortStrings (es.map (·.udid))))
  else .ok udid0

/-- The fetch suffix of `get_info` (`device.py` lines 321–338): reject a
falsy udid, try pymobiledevice3, fall back to `ideviceinfo`, and raise
`DeviceToolMissingError` or a plain `DeviceError` when both are unusable. -/
def getInfoFetch (env : DeviceEnv) (u? : Option String) : Except PyError Device :=
  if !optStrTruthy u? then .error (.deviceError "UDID konnte nicht ermittelt werden." 5)
  else
    let u := u?.getD ""
    let raw1 := (env.pymdInfo u).getD []
    if raw1 != [] then .ok (_build_device raw1 (some u) none)
    else
      let raw2 := (_get_info_via_ideviceinfo env (some u)).getD []
      if raw2 != [] then
        .ok (_build_device (raw2.map (fun kv => (kv.1, PyVal.pyStr kv.2))) (some u) (some "usb"))
      else if !env.haveIdeviceinfo then .error (.toolMissing (sortedUnique ["ideviceinfo"]))
      else .error (.deviceError ("Konnte keine Informationen fuer " ++ u ++ " abrufen.") 6)

/-- `get_info` from `device.py`: resolve the target identifier (discovery
when `udid is None and allow_discovery`), then fetch details via
pymobiledevice3 with an `ideviceinfo` fallback. -/
def get_info (env : DeviceEnv) (udid0 : Option String := none)
    (allowDiscovery : Bool := true) : Except PyError Device :=
  match resolveTargetUdid env udid0 allowDiscovery with
  | .error e => .error e
  | .ok u? => getInfoFetch env u?

/-- The bare record `list_devices` builds when a per-candidate detail fetch
fails: `_build_device({}, udid=udid, connection=connection)`. -/
def bareDevice (e : DiscEntry) : Device := _build_device [] (some e.udid) e.connection

/-- The connection back-fill in `list_devices`: if the discovery entry had a
connection hint and the fetched info came back `"unknown"`, fill it in. -/
def connectionPatch (e : DiscEntry) (info : Device) : Device :=
  if optStrTruthy e.connection && info.connection == "unknown" then
    { info with connection := _normalize_connection e.connection }
  else info

/-- The per-candidate loop of `list_devices`: `DeviceToolMissingError` is
collected and degrades the entry, any other `DeviceError` degrades the
entry, and a non-`DeviceError` exception propagates. -/
def listLoop (env : DeviceEnv) :
    List DiscEntry → List Device → List String → Except PyError (List Device × List String)
  | [], devs, tools => .ok (devs, tools)
  | e :: rest, devs, tools =>
      match get_info env (some e.udid) false with
      | .ok info => listLoop env rest (devs ++ [connectionPatch e info]) tools
      | .error (.toolMissing ts) => listLoop env rest (devs ++ [bareDevice e]) (tools ++ ts)
      | .error .noDevices => listLoop env rest (devs ++ [bareDevice e]) tools
      | .error (.multipleDevices _) => listLoop env rest (devs ++ [bareDevice e]) tools
      | .error (.deviceError _ _) => listLoop env rest (devs ++ [bareDevice e]) tools
      | .error (.attributeError m) => .error (.attributeError m)

/-- The synthesized DFU placeholder of `list_devices`
(`Device.model_construct`, no validation, `udid=None`). -/
def dfuPlaceholder : Device :=
  { udid := none, product_type := none, product_version := none,
    device_name := some "(DFU device)", connection := "usb", mode := "dfu", details := [] }

/-- `list_devices` from `device.py`. -/
def list_devices (env : DeviceEnv) (includeDfu : Bool := false) :
    Except PyError (List Device) :=
  let afterLoop : Except PyError (List Device) :=
    if env.discovered == [] then
      if !env.anyTool && env.missingTools != [] then
        .error (.toolMissing (sortedUnique env.missingTools))
      else .ok []
    else
      match listLoop env env.discovered [] [] with
      | .error e => .error e
      | .ok (devs, tools) =>
          if tools != [] then .error (.toolMissing (sortedUnique tools)) else .ok devs
  match afterLoop with
  | .error e => .error e
  | .ok devs =>
      if includeDfu then
        match detect_dfu env with
        | .error e => .error e
        | .ok true =>
            if devs.all (fun d => d.mode != "dfu") then .ok (devs ++ [dfuPlaceholder])
            else .ok devs
        | .ok false => .ok devs
      else .ok devs

/-! ### `ipsw.py`: `validate_ipsw` -/

/-- Filesystem/archive state at the IPSW path, as observed by
`validate_ipsw`: existence, regular-file flag, byte size, the SHA-1 digest
of the contents, the archive's name list (`.error msg` when opening raises
`BadZipFile` or another exception, with `msg` the resulting message — for
`BadZipFile` the code substitutes "IPSW is not a valid ZIP archive"), and an
optional exception while opening the manifest member. -/
structure IpswEnv where
  pathExists : Bool := false
  isFile : Bool := true
  size : Nat := 0
  sha1 : String := ""
  zipNames : Except String (List String) := .ok []
  manifestOpenError : Option String := none

/-- The result dict of `validate_ipsw`. -/
structure IpswResult where
  ok : Bool
  size : Nat
  sha1 : Option String
  has_manifest : Bool
  error : Option String
deriving DecidableEq, Repr

/-- `validate_ipsw` from `ipsw.py`.  Mirrors the early-return structure: each
exit carries exactly the fields assigned up to that point (`size` before the
emptiness check, `sha1` before the archive is opened, `has_manifest` before
the manifest member is touched). -/
def validate_ipsw (env : IpswEnv) : IpswResult :=
  if !env.pathExists then ⟨false, 0, none, false, some "IPSW not found"⟩
  else if !env.isFile then ⟨false, 0, none, false, some "IPSW path is not a file"⟩
  else if env.size == 0 then ⟨false, env.size, none, false, some "IPSW file is empty"⟩
  else
    match env.zipNames with
    | .error msg => ⟨false, env.size, some env.sha1, false, some msg⟩
    | .ok names =>
        match names.find? (fun n => strEndsWith n "BuildManifest.plist") with
        | some _ =>
            match env.manifestOpenError with
            | some msg => ⟨false, env.size, some env.sha1, true, some msg⟩
            | none => ⟨true, env.size, some env.sha1, true, none⟩
        | none => ⟨true, env.size, some env.sha1, false, none⟩

/-! ### `restore.py`: preflight checks -/

/-- `OPTIONAL_CHECKS` from `restore.py`. -/
def OPTIONAL_CHECKS : List String := ["amds_running", "device_info"]

/-- A check entry as assembled by `add_check` in `preflight_checks`: the
`name`/`ok` pair plus the keyword fields that survive the `is not None`
filter.  Numeric fields are stored in their rendered form, since they are
only ever interpolated into strings. -/
structure CheckEntry where
  name : String
  ok : Bool
  error : Option String := none
  detail : Option String := none
  path : Option String := none
  value : Option String := none
  suffix : Option String := none
  size : Option String := none
  threshold : Option String := none
  sha1 : Option String := none
  has_manifest : Option Bool := none
deriving DecidableEq, Repr

/-- An entry of the `errors` list: `{"name": ..., "message": ...}`. -/
structure ErrorEntry where
  name : String
  message : String
deriving DecidableEq, Repr

/-- `info.get("error") or info.get("detail") or ""`: Python `or` treats
`None` and `""` as falsy. -/
def pyOrS : Option String → String → String
  | some s, d => if s == "" then d else s
  | none, d => d

/-- The message recorded for a failed required check. -/
def checkMessage (e : CheckEntry) : String := pyOrS e.error (pyOrS e.detail "")

/-- The mutable state threaded through `add_check`. -/
structure PFState where
  checks : List CheckEntry := []
  errors : List ErrorEntry := []

/-- `add_check` from `preflight_checks`: append the entry, and when a
non-optional check failed, also append a `{name, message}` error entry. -/
def addCheck (st : PFState) (e : CheckEntry) : PFState :=
  { checks := st.checks ++ [e]
    errors := st.errors ++
      (if !e.ok && !(OPTIONAL_CHECKS.contains e.name) then [⟨e.name, checkMessage e⟩] else []) }

/-- Rendering of `round(free_gb, 2)` (hundredths of a GiB; Python's float
formatting differs in trailing zeros, which no claim observes). -/
def renderCenti (free : Nat) : String :=
  let c := free * 100 / (1024 ^ 3)
  toString (c / 100) ++ "." ++ toString (c % 100)

/-- Rendering of `f"{free_gb:.1f}"` (tenths of a GiB, truncated). -/
def renderDeci (free : Nat) : String :=
  let d := free * 10 / (1024 ^ 3)
  toString (d / 10) ++ "." ++ toString (d % 10)

/-- The disk-space failure message. -/
def diskErrMsg (free : Nat) (minGb : Nat) : String :=
  "free space " ++ renderDeci free ++ "GB below minimum " ++ toString minGb ++ "GB"

/-- Rendering of the optional `device_info` dict (Python would show the
dict's `str`; the exact text is immaterial to every claim). -/
def renderDeviceInfo (di : Option String × Option String) : String :=
  "product_type=" ++ di.1.getD "None" ++ ", product_version=" ++ di.2.getD "None"

/-- Environment for `preflight_checks`: presence of `idevicerestore`, the
filesystem state at the IPSW path (shared with `validate_ipsw`), the free
bytes at the disk-usage target (`.error` when `shutil.disk_usage` raises),
the AMDS service probe (`.error` when the `sc query` call raises), and the
best-effort device-info lookup (`none` when it failed or returned nothing).
-/
structure PreflightEnv where
  haveIdevicerestore : Bool := false
  ipsw : IpswEnv := {}
  diskFree : Except String Nat := .error "disk usage unavailable"
  amds : Except String Bool := .error "sc not found"
  deviceInfo : Option (Option String × Option String) := none

/-- The IPSW-related check entries: `ipsw_exists`, and (only when a path was
given) `ipsw_validated`, with the field set of the corresponding `add_check`
call. -/
def ipswEntries (fs : IpswEnv) : Option String → List CheckEntry
  | none => [{ name := "ipsw_exists", ok := false, error := some "no IPSW path provided" }]
  | some p =>
      if fs.pathExists then
        let v := validate_ipsw fs
        [{ name := "ipsw_exists", ok := true, path := some p },
         { name := "ipsw_validated", ok := v.ok, error := v.error,
           size := some (toString v.size), sha1 := v.sha1,
           has_manifest := some v.has_manifest }]
      else
        [{ name := "ipsw_exists", ok := false, path := some p },
         { name := "ipsw_validated", ok := false, error := some "IPSW not found" }]

/-- The `disk_free_gb` check entry: exact byte comparison of the free space
against `min_disk_gb` gibibytes (Python compares the float `free / 1024**3`),
or the exception branch. -/
def diskEntry (minDiskGb : Nat) : Except String Nat → CheckEntry
  | .ok free =>
      let diskOk := decide (minDiskGb * 1024 ^ 3 ≤ free)
      { name := "disk_free_gb", ok := diskOk,
        value := some (renderCenti free), threshold := some (toString minDiskGb),
        error := if diskOk then none else some (diskErrMsg free minDiskGb) }
  | .error msg => { name := "disk_free_gb", ok := false, error := some msg }

/-- The optional `amds_running` check entry. -/
def amdsEntry : Except String Bool → CheckEntry
  | .ok running =>
      { name := "amds_running", ok := running,
        detail := some (if running then "running" else "stopped") }
  | .error msg => { name := "amds_running", ok := false, error := some msg }

/-- The optional `device_info` check entry (the lookup only happens for a
truthy udid). -/
def deviceInfoEntry (udid : Option String)
    (di : Option (Option String × Option String)) : CheckEntry :=
  let d := if optStrTruthy udid then di else none
  { name := "device_info", ok := d.isSome, detail := d.map renderDeviceInfo }

/-- The ordered check entries produced by one `preflight_checks` run: the
`add_check` call sites in source order. -/
def preflightEntries (env : PreflightEnv) (udid : Option String)
    (ipswPath : Option String) (minDiskGb : Nat) : List CheckEntry :=
  [{ name := "check_idevicerestore", ok := env.haveIdevicerestore }]
    ++ ipswEntries env.ipsw ipswPath
    ++ [diskEntry minDiskGb env.diskFree]
    ++ [amdsEntry env.amds]
    ++ [deviceInfoEntry udid env.deviceInfo]

/-- The summary dict returned by `preflight_checks`. -/
structure PreflightSummary where
  ok : Bool
  checks : List CheckEntry
  errors : List ErrorEntry
deriving Repr

/-- `preflight_checks` from `restore.py` (`min_disk_gb` defaults to 10; the
`log_dir` parameter only selects the disk-usage target, which the
environment's `diskFree` already reflects).  The aggregate `ok` is
`all(entry["ok"] for entry in checks if entry["name"] not in
OPTIONAL_CHECKS)`. -/
def preflight_checks (env : PreflightEnv) (udid : Option String)
    (ipswPath : Option String) (minDiskGb : Nat := 10) : PreflightSummary :=
  let st := (preflightEntries env udid ipswPath minDiskGb).foldl addCheck {}
  { ok := (st.checks.filter (fun c => !(OPTIONAL_CHECKS.contains c.name))).all (·.ok)
    checks := st.checks
    errors := st.errors }

/-- `_format_detail` from `restore.py`: join `key=value` for the detail keys
present and non-empty, in the fixed key order. -/
def _format_detail (e : CheckEntry) : Option String :=
  let parts :=
    [("error", e.error), ("detail", e.detail), ("path", e.path), ("value", e.value),
     ("suffix", e.suffix), ("size", e.size), ("threshold", e.threshold)].filterMap
      (fun kv =>
        match kv.2 with
        | some v => if v == "" then none else some (kv.1 ++ "=" ++ v)
        | none => none)
  if parts == [] then none else some (pyJoin ", " parts)

/-! ### `restore.py`: the restore orchestrator -/

/-- `models.Status`. -/
inductive Status where
  | success
  | failure
deriving DecidableEq, Repr

/-- `models.RestoreResult`.  Timestamps are seconds on an abstract clock;
`durationSec` is the integer duration recorded by the code. -/
structure RestoreResult where
  status : Status
  udid : Option String
  ipsw : Option String
  wipe : Bool
  steps : List Step
  logfile : String
  startedAt : Int
  finishedAt : Int
  durationSec : Int
deriving DecidableEq, Repr

/-- `_build_result` from `restore.py`. -/
def _build_result (status : Status) (udid ipsw : Option String) (wipe : Bool)
    (steps : List Step) (logfile : String) (startedAt finishedAt : Int)
    (duration : Int) : RestoreResult :=
  ⟨status, udid, ipsw, wipe, steps, logfile, startedAt, finishedAt, duration⟩

/-- `_sanitize_udid` from `restore.py`: `re.sub(r"[^\w.-]", "_", value)`,
with `"unknown"` for a falsy value. -/
def _sanitize_udid (value : Option String) : String :=
  if !optStrTruthy value then "unknown"
  else
    String.mk ((value.getD "").toList.map
      (fun c => if isWordChar c || c == '.' || c == '-' then c else '_'))

/-- `_compose_log_path` from `restore.py`:
`(base / sanitized-udid / f"restore-{timestamp}.log")`.  (`Path.resolve()`
only absolutizes against the process working directory, which the embedding
leaves symbolic.) -/
def _compose_log_path (udid : Option String) (baseDir : Option String)
    (timestamp : String) : String :=
  let base := if optStrTruthy baseDir then baseDir.getD "" else "logs"
  base ++ "/" ++ _sanitize_udid udid ++ "/restore-" ++ timestamp ++ ".log"

/-- `_compose_command` from `restore.py`: the `idevicerestore` argument list
from the wipe flag, the optional (truthy) udid, and the trailing IPSW path.
-/
def _compose_command (udid : Option String) (ipswPath : String) (wipe : Bool) :
    List String :=
  ["idevicerestore"] ++ [if wipe then "-w" else "-r"]
    ++ (if optStrTruthy udid then ["-u", udid.getD ""] else []) ++ [ipswPath]

/-- The keyword arguments of one `restore(...)` call. -/
structure RestoreArgs where
  udid : Option String := none
  ipswPath : Option String := none
  latest : Bool := false
  wipe : Bool := true
  keepLogs : Bool := false
  preflightOnly : Bool := false
  dryRun : Bool := false
  timeoutSec : Option Nat := none
  logDir : Option String := none

/-- The child-process side of one restore run: the `Popen` outcome
(`.error msg` when spawning raises), the combined-output lines drained by
the streaming thread, whether `process.wait(timeout=...)` raises
`TimeoutExpired` before the process exits (only reachable when a truthy
timeout was passed), the exit code `wait` would return, and the elapsed
whole seconds `int(time.time() - t0)`. -/
structure ProcEnv where
  spawn : Except String Unit := .ok ()
  outputLines : List String := []
  timesOut : Bool := false
  exitCode : Int := 0
  elapsed : Nat := 0

/-- Environment of one `restore(...)` call: the timestamp string used in the
log path, the clock values observed at entry and at the exit branches, the
preflight environment and the child process. -/
structure RestoreEnv where
  timestamp : String := "19700101-000000"
  startedAt : Int := 0
  finishedAt : Int := 0
  pf : PreflightEnv := {}
  proc : ProcEnv := {}

/-- The steps recorded by the preflight phase of `restore`: one `Step` per
check (detail via `_format_detail`) plus the aggregate "preflight" step
whose detail joins the failed required check names. -/
def preflightSteps (env : PreflightEnv) (udid ipswPath : Option String) : List Step :=
  let pf := preflight_checks env udid ipswPath
  pf.checks.map (fun e => (⟨e.name, e.ok, _format_detail e⟩ : Step))
    ++ [⟨"preflight", pf.ok,
         if pf.ok then none
         else some (pyJoin "; " (pf.errors.map (·.name)))⟩]

/-- The post-spawn phase of `restore` (the `with log_path.open(...)` block
and finalization): drain output into milestone steps, wait with the
optional timeout (`rc` starts at 1 and is only assigned by a completed
`wait`, so a timeout always finalizes with `rc = 1`), append the "timeout"
step when the bound elapsed, and append the terminal "idevicerestore" step
with `ok = (rc == 0)`. -/
def runPhase (env : RestoreEnv) (args : RestoreArgs) (steps1 : List Step)
    (logPath : String) : RestoreResult :=
  let progress := extractSteps env.proc.outputLines
  let timeoutActive :=
    match args.timeoutSec with
    | some n => n != 0
    | none => false
  let timedOut := timeoutActive && env.proc.timesOut
  let rc : Int := if timedOut then 1 else env.proc.exitCode
  let steps2 := steps1 ++ progress
    ++ (if timedOut then
          [⟨"timeout", false, some (toString (args.timeoutSec.getD 0) ++ "s")⟩]
        else [])
    ++ [⟨"idevicerestore", decide (rc = 0), some ("rc=" ++ toString rc)⟩]
  _build_result (if rc = 0 then .success else .failure) args.udid args.ipswPath
    args.wipe steps2 logPath env.startedAt env.finishedAt (Int.ofNat env.proc.elapsed)

/-- `restore` from `restore.py`: the full orchestration.  Branches in source
order: the unsupported `--latest` path; preflight (whose checks become
`Step`s, plus the aggregate "preflight" step); `preflight_only`; failed
preflight; command composition (the source `assert ipsw_path is not None`
is unreachable with a passing preflight, `getD ""` stands in for it);
`dry_run`; spawn failure; and the supervised run (`runPhase`). -/
def restore (env : RestoreEnv) (args : RestoreArgs) : RestoreResult :=
  let logPath := _compose_log_path args.udid args.logDir env.timestamp
  if args.latest then
    _build_result .failure args.udid args.ipswPath args.wipe
      [⟨"resolve_latest_ipsw", false, some "--latest is not implemented"⟩]
      logPath env.startedAt env.finishedAt 0
  else
    let pf := preflight_checks env.pf args.udid args.ipswPath
    let steps1 := preflightSteps env.pf args.udid args.ipswPath
    let baseDuration : Int := env.finishedAt - env.startedAt
    if args.preflightOnly then
      _build_result (if pf.ok then .success else .failure) args.udid args.ipswPath
        args.wipe steps1 logPath env.startedAt env.finishedAt baseDuration
    else if !pf.ok then
      _build_result .failure args.udid args.ipswPath args.wipe steps1 logPath
        env.startedAt env.finishedAt baseDuration
    else
      let cmd := _compose_command args.udid (args.ipswPath.getD "") args.wipe
      if args.dryRun then
        _build_result .success args.udid args.ipswPath args.wipe
          (steps1 ++ [⟨"compose_cmd", true, some (pyJoin " " cmd)⟩])
          logPath env.startedAt env.finishedAt baseDuration
      else
        match env.proc.spawn with
        | .error exc =>
            _build_result .failure args.udid args.ipswPath args.wipe
              (steps1 ++ [⟨"idevicerestore", false, some exc⟩]) logPath
              env.startedAt env.finishedAt baseDuration
        | .ok _ => runPhase env args steps1 logPath

/-! ### Spec-side definitions and concrete claim environments -/

/-- Modelled from the claim's words (C7 as stated): a flag is truthy exactly
when it is boolean true, a nonzero number, or a string equal to "1", "true"
or "yes" case-insensitively. -/
def flagTruthyClaimed : Option PyVal → Bool
  | some (.pyBool b) => b
  | some (.pyInt n) => n != 0
  | some (.pyStr s) =>
      let t := pyLower s
      t == "1" || t == "true" || t == "yes"
  | _ => false

/-- Modelled from the claim's words (C7 as stated): precedence explicit DFU
flag, then explicit recovery flag, then *presence* of a firmware-version
field (normal), then unknown. -/
def detectModeClaimed (raw : List (String × PyVal)) : String :=
  if flagTruthyClaimed (rawGet raw "DFUMode") then "dfu"
  else if flagTruthyClaimed (rawGet raw "RecoveryMode")
      || flagTruthyClaimed (rawGet raw "IsInRecoveryMode") then "recovery"
  else if (rawGet raw "ProductVersion").isSome then "normal"
  else "unknown"

/-- The amended truthiness predicate: as the claim, but the string is
whitespace-stripped before the case-insensitive comparison (Python's
`value.strip().lower()`). -/
def flagTruthyAmended : Option PyVal → Bool
  | some (.pyBool b) => b
  | some (.pyInt n) => n != 0
  | some (.pyStr s) =>
      let t := pyLower (pyStrip s)
      decide (t = "1" ∨ t = "true" ∨ t = "yes")
  | _ => false

/-- The amended mode-detection specification: precedence explicit DFU
indication (truthy `DFUMode`, or `DeviceMode` equal to the exact string
"dfu"), then explicit recovery flag (truthy `RecoveryMode` or
`IsInRecoveryMode`), then a firmware-version field with a truthy (non-empty,
nonzero) value (normal), then unknown. -/
def detectModeAmended (raw : List (String × PyVal)) : String :=
  if flagTruthyAmended (rawGet raw "DFUMode")
      || (rawGet raw "DeviceMode" == some (.pyStr "dfu")) then "dfu"
  else if flagTruthyAmended (rawGet raw "RecoveryMode")
      || flagTruthyAmended (rawGet raw "IsInRecoveryMode") then "recovery"
  else if optTruthy (rawGet raw "ProductVersion") then "normal"
  else "unknown"

/-- A concrete filesystem state: an existing, non-empty, readable archive
that lacks a `BuildManifest.plist` member. -/
def ipswNoManifestEnv : IpswEnv :=
  { pathExists := true
    isFile := true
    size := 5
    sha1 := "ab"
    zipNames := .ok ["Restore.plist"] }

/-- Concrete discovery environments for the witness. -/
def envTwoCandidates : DeviceEnv :=
  { discovered := [⟨"B", none⟩, ⟨"A", some "usb"⟩] }

def envZeroCandidates : DeviceEnv :=
  { discovered := [] }

/-- A preflight environment in which every required check passes. -/
def pfGoodEnv : PreflightEnv :=
  { haveIdevicerestore := true
    ipsw := { pathExists := true, isFile := true, size := 5, sha1 := "ab",
              zipNames := .ok ["x/BuildManifest.plist"] }
    diskFree := .ok (20 * 1024 ^ 3)
    amds := .ok true
    deviceInfo := none }

/-- A restore environment whose preflight passes. -/
def restoreDryEnv : RestoreEnv :=
  { pf := pfGoodEnv }

/-- The dry-run invocation used by the witness. -/
def argsDryRun : RestoreArgs :=
  { ipswPath := some "fw.ipsw", dryRun := true }

/-- Does a fetch outcome represent `DeviceToolMissingError`? -/
def isToolMissingRes : Except PyError Device → Bool
  | .error (.toolMissing _) => true
  | _ => false

/-- The device recorded by the `list_devices` loop for one discovery entry:
the fetched info (with the connection back-fill) on success, the bare
`id + connection` record on any `DeviceError`. -/
def entryResult (env : DeviceEnv) (e : DiscEntry) : Device :=
  match get_info env (some e.udid) false with
  | .ok info => connectionPatch e info
  | .error _ => bareDevice e

/-- The discovery environment of the counterexample: one candidate, neither
pymobiledevice3 nor `ideviceinfo` usable. -/
def envToolMissing : DeviceEnv :=
  { discovered := [⟨"A", some "usb"⟩], haveIdeviceinfo := false }

/-- The witness environment: candidate "A" resolves via pymobiledevice3;
candidate "B"'s fetch fails with a plain `DeviceError` (tools present, no
data), so its entry degrades to the bare record. -/
def envMixedFetch : DeviceEnv :=
  { discovered := [⟨"A", some "usb"⟩, ⟨"B", some "usb"⟩]
    pymdInfo := fun u =>
      if u == "A" then some [("UniqueDeviceID", .pyStr "A"), ("ProductVersion", .pyStr "17.0")]
      else none
    haveIdeviceinfo := true
    ideviceinfoRun := fun _ => ⟨1, "", ""⟩ }

/-- The environment of the C1 witness: preflight passes, the process is
spawned, writes nothing, would exit 0 — but outlives the 30-second timeout.
-/
def restoreTimeoutEnv : RestoreEnv :=
  { pf := pfGoodEnv
    proc := { spawn := .ok (), outputLines := [], timesOut := true, exitCode := 0 } }

/-- The invocation of the C1 witness. -/
def argsTimeout : RestoreArgs :=
  { ipswPath := some "fw.ipsw", timeoutSec := some 30 }

/-! ### Shared lemmas -/

/-- Appending one element determines `getLast?`. -/
theorem getLast?_append_one {α} (l : List α) (a : α) : (l ++ [a]).getLast? = some a :=
  List.getLast?_concat l

/-- A fired name is recorded in the accumulated steps, so the inner pattern
fold preserves the no-duplicates invariant of the step names. -/
theorem fireFold_nodup (line : String) :
    ∀ (ns : List String) (fired : List Step), ((fired.map (·.name))).Nodup →
      (((ns.foldl
        (fun fired nm =>
          if (fired.map (·.name)).contains nm then fired
          else if stepPatternMatches nm line then fired ++ [⟨nm, true, none⟩]
          else fired)
        fired)).map (·.name)).Nodup := by
  intro ns
  induction ns with
  | nil => intro fired h; exact h
  | cons nm ns ih =>
    intro fired h
    simp only [List.foldl_cons]
    by_cases hc : (fired.map (·.name)).contains nm
    · rw [if_pos hc]; exact ih fired h
    · rw [if_neg hc]
      by_cases hm : stepPatternMatches nm line
      · rw [if_pos hm]
        apply ih
        rw [List.map_append]
        have hnm : nm ∉ fired.map (·.name) := by
          intro hmem
          exact hc (List.elem_iff.mpr hmem)
        simp [List.nodup_append, h, hnm]
      · rw [if_neg hm]; exact ih fired h

/-- `lineFire` preserves the no-duplicates invariant. -/
theorem lineFire_nodup (fired : List Step) (line : String)
    (h : ((fired.map (·.name))).Nodup) : (((lineFire fired line)).map (·.name)).Nodup :=
  fireFold_nodup line STEP_PATTERN_NAMES fired h

/-- Folding `lineFire` over any line stream preserves the invariant. -/
theorem extractFold_nodup :
    ∀ (lines : List String) (fired : List Step), ((fired.map (·.name))).Nodup →
      (((lines.foldl lineFire fired)).map (·.name)).Nodup := by
  intro lines
  induction lines with
  | nil => intro fired h; exact h
  | cons line rest ih =>
    intro fired h
    simp only [List.foldl_cons]
    exact ih _ (lineFire_nodup fired line h)

/-- Claim C3: in one restore run each milestone name produces at most one
`Step` (the extracted step names are duplicate-free for every line stream),
and the concrete stream `["Extracting firmware", "Extracting more",
"Sending RestoreImage now"]` yields exactly the steps `extract` then
`send_restore_image`, in that order. -/
theorem claim_C3_step_extractor :
    (∀ lines : List String, (((extractSteps lines)).map (·.name)).Nodup) ∧
    extractSteps ["Extracting firmware", "Extracting more", "Sending RestoreImage now"] =
      [⟨"extract", true, none⟩, ⟨"send_restore_image", true, none⟩] := by
  constructor
  · intro lines
    exact extractFold_nodup lines [] (by simp)
  · decide

/-- Claim C4 (code bug): `detect_dfu` promises to never raise, but
`parse_irecovery_q` returns a *string*, so the `.get("mode", "")` call in
`detect_dfu` raises `AttributeError` on every successful non-empty
`irecovery -q` query.  The tool-missing and failed/empty-query paths do
return `False` as documented. -/
theorem claim_C4_detect_dfu_raises :
    detect_dfu { discovered := [], haveIrecovery := true, irecoveryQ := ⟨0, "MODE: DFU\n", ""⟩ } =
      .error (.attributeError "str object has no attribute get") ∧
    detect_dfu { discovered := [], haveIrecovery := false } = .ok false ∧
    detect_dfu { discovered := [], haveIrecovery := true, irecoveryQ := ⟨1, "", "boom"⟩ } =
      .ok false ∧
    detect_dfu { discovered := [], haveIrecovery := true, irecoveryQ := ⟨0, "", ""⟩ } =
      .ok false := by
  refine ⟨by decide, by decide, by decide, by decide⟩

/-! ### Claim C7: mode detection -/

/-- Claim C7 counterexample: a map whose firmware-version field is present
but empty.  The claim's reading gives "normal" (the field is present); the
code's `raw.get("ProductVersion")` truthiness test gives "unknown". -/
theorem claim_C7_counterexample :
    _detect_mode [("ProductVersion", .pyStr "")] = "unknown" ∧
    detectModeClaimed [("ProductVersion", .pyStr "")] = "normal" ∧
    _detect_mode [("ProductVersion", .pyStr "")] ≠
      detectModeClaimed [("ProductVersion", .pyStr "")] := by
  refine ⟨by decide, by decide, by decide⟩

/-- The code's local `_truthy` coincides with the amended truthiness. -/
theorem truthy_eq_amended (v : Option PyVal) : _truthy v = flagTruthyAmended v := by
  rcases v with _ | w
  · rfl
  · cases w with
    | pyStr s =>
        simp only [_truthy, flagTruthyAmended]
        by_cases h1 : pyLower (pyStrip s) = "1" <;>
          by_cases h2 : pyLower (pyStrip s) = "true" <;>
            by_cases h3 : pyLower (pyStrip s) = "yes" <;>
              simp [h1, h2, h3]
    | pyBool b => rfl
    | pyInt n => rfl
    | pyBytes bs => rfl

/-- Claim C7 (amended): `_detect_mode` is a pure function of the raw map
equal to the amended precedence specification, and a map carrying both a DFU
flag and a firmware version maps to "dfu". -/
theorem claim_C7_detect_mode :
    (∀ raw, _detect_mode raw = detectModeAmended raw) ∧
    _detect_mode [("DFUMode", .pyStr "1"), ("ProductVersion", .pyStr "17.0")] = "dfu" := by
  constructor
  · intro raw
    unfold _detect_mode detectModeAmended
    rw [truthy_eq_amended, truthy_eq_amended, truthy_eq_amended]
  · decide

/-! ### Claim C10: IPSW validation -/

/-- Claim C10: an existing regular file with positive size whose archive
opens and (when a manifest is present) whose manifest member opens yields
`ok = true` with `error = none` — the manifest's absence alone never fails
validation, it only sets `has_manifest := false`; while a non-existent path,
a non-file, an empty file, an unreadable archive, or an unreadable manifest
member always yield `ok = false` with a non-null error. -/
theorem claim_C10_validate_ipsw (env : IpswEnv) :
    (∀ names, env.pathExists = true → env.isFile = true → 0 < env.size →
        env.zipNames = .ok names → env.manifestOpenError = none →
        validate_ipsw env =
          ⟨true, env.size, some env.sha1,
            names.any (fun n => strEndsWith n "BuildManifest.plist"), none⟩) ∧
    (env.pathExists = false →
        validate_ipsw env = ⟨false, 0, none, false, some "IPSW not found"⟩) ∧
    (env.pathExists = true → env.isFile = false →
        validate_ipsw env = ⟨false, 0, none, false, some "IPSW path is not a file"⟩) ∧
    (env.pathExists = true → env.isFile = true → env.size = 0 →
        validate_ipsw env = ⟨false, 0, none, false, some "IPSW file is empty"⟩) ∧
    (∀ msg, env.pathExists = true → env.isFile = true → 0 < env.size →
        env.zipNames = .error msg →
        validate_ipsw env = ⟨false, env.size, some env.sha1, false, some msg⟩) ∧
    (∀ names msg, env.pathExists = true → env.isFile = true → 0 < env.size →
        env.zipNames = .ok names → env.manifestOpenError = some msg →
        (names.any (fun n => strEndsWith n "BuildManifest.plist")) = true →
        validate_ipsw env = ⟨false, env.size, some env.sha1, true, some msg⟩) := by
  refine ⟨?_, ?_, ?_, ?_, ?_, ?_⟩
  · intro names hex hfile hsz hzip hman
    unfold validate_ipsw
    rw [hex, hfile, hzip]
    have hsz' : (env.size == 0) = false := by
      simp only [beq_eq_false_iff_ne, ne_eq]
      omega
    simp only [hsz', Bool.not_true, Bool.not_false, Bool.false_eq_true, if_false, if_neg]
    cases hf : names.find? (fun n => strEndsWith n "BuildManifest.plist") with
    | none =>
        have hall := List.find?_eq_none.mp hf
        have hany : names.any (fun n => strEndsWith n "BuildManifest.plist") = false := by
          simp only [List.any_eq_false]
          intro x hx
          simpa using hall x hx
        simp [hany]
    | some m =>
        have hpm := List.find?_some hf
        have hany : names.any (fun n => strEndsWith n "BuildManifest.plist") = true :=
          List.any_eq_true.mpr ⟨m, List.mem_of_find?_eq_some hf, hpm⟩
        simp [hany, hman]
  · intro hex
    unfold validate_ipsw
    rw [hex]
    rfl
  · intro hex hfile
    unfold validate_ipsw
    rw [hex, hfile]
    rfl
  · intro hex hfile hsz
    unfold validate_ipsw
    rw [hex, hfile, hsz]
    rfl
  · intro msg hex hfile hsz hzip
    unfold validate_ipsw
    rw [hex, hfile, hzip]
    have hsz' : (env.size == 0) = false := by
      simp only [beq_eq_false_iff_ne, ne_eq]
      omega
    simp [hsz']
  · intro names msg hex hfile hsz hzip hman hany
    unfold validate_ipsw
    rw [hex, hfile, hzip]
    have hsz' : (env.size == 0) = false := by
      simp only [beq_eq_false_iff_ne, ne_eq]
      omega
    have hf : (names.find? (fun n => strEndsWith n "BuildManifest.plist")).isSome = true :=
      List.find?_isSome.mpr (List.any_eq_true.mp hany)
    cases hfm : names.find? (fun n => strEndsWith n "BuildManifest.plist") with
    | none => rw [hfm] at hf; exact absurd hf (by simp)
    | some m => simp [hsz', hfm, hman]

/-- Witness for claim C10: the concrete readable archive without a
`BuildManifest.plist` entry validates with `ok = true`, `error = none`,
`has_manifest = false`. -/
theorem claim_C10_witness :
    validate_ipsw ipswNoManifestEnv = ⟨true, 5, some "ab", false, none⟩ := by
  have h := (claim_C10_validate_ipsw ipswNoManifestEnv).1 ["Restore.plist"] rfl rfl
    (by decide) rfl rfl
  simpa using h

/-! ### Claim C6: preflight aggregate -/

/-- `add_check` only ever appends to the `checks` list. -/
theorem foldl_addCheck_checks :
    ∀ (l : List CheckEntry) (st : PFState), (l.foldl addCheck st).checks = st.checks ++ l := by
  intro l
  induction l with
  | nil => intro st; simp
  | cons e rest ih =>
      intro st
      simp only [List.foldl_cons]
      rw [ih]
      simp [addCheck]

/-- `add_check` appends an error entry exactly for each failed required
check. -/
theorem foldl_addCheck_errors :
    ∀ (l : List CheckEntry) (st : PFState),
      (l.foldl addCheck st).errors = st.errors ++
        (l.filter (fun c => !c.ok && !(OPTIONAL_CHECKS.contains c.name))).map
          (fun c => ⟨c.name, checkMessage c⟩) := by
  intro l
  induction l with
  | nil => intro st; simp
  | cons e rest ih =>
      intro st
      simp only [List.foldl_cons, List.filter_cons]
      rw [ih]
      cases he : (!e.ok && !(OPTIONAL_CHECKS.contains e.name)) with
      | true =>
          simp only [addCheck, List.filter_cons, he]
          simp
      | false =>
          simp only [addCheck, List.filter_cons, he]
          simp

/-- The checks of a preflight run are exactly its entry list. -/
theorem preflight_checks_eq_entries (env : PreflightEnv) (udid ipswPath : Option String)
    (minDiskGb : Nat) :
    (preflight_checks env udid ipswPath minDiskGb).checks =
      preflightEntries env udid ipswPath minDiskGb := by
  show (List.foldl addCheck ⟨[], []⟩ (preflightEntries env udid ipswPath minDiskGb)).checks = _
  rw [foldl_addCheck_checks]
  rfl

/-- The aggregate flag, expressed over the entry list. -/
theorem preflight_ok_eq (env : PreflightEnv) (udid ipswPath : Option String)
    (minDiskGb : Nat) :
    (preflight_checks env udid ipswPath minDiskGb).ok =
      ((preflightEntries env udid ipswPath minDiskGb).filter
        (fun c => !(OPTIONAL_CHECKS.contains c.name))).all (·.ok) := by
  show ((List.foldl addCheck ⟨[], []⟩ (preflightEntries env udid ipswPath minDiskGb)).checks.filter
      (fun c => !(OPTIONAL_CHECKS.contains c.name))).all (·.ok) = _
  rw [foldl_addCheck_checks]
  rfl

/-- The name of the AMDS entry, in both branches. -/
theorem amdsEntry_name (x : Except String Bool) : (amdsEntry x).name = "amds_running" := by
  cases x <;> rfl

/-- The required-check sublist of the preflight entries does not depend on
the AMDS probe or the device-info lookup. -/
theorem preflight_required_indep (env : PreflightEnv) (a : Except String Bool)
    (di : Option (Option String × Option String)) (udid ipswPath : Option String)
    (minDiskGb : Nat) :
    (preflightEntries { env with amds := a, deviceInfo := di } udid ipswPath minDiskGb).filter
        (fun c => !(OPTIONAL_CHECKS.contains c.name)) =
      (preflightEntries env udid ipswPath minDiskGb).filter
        (fun c => !(OPTIONAL_CHECKS.contains c.name)) := by
  have hamds : ∀ x : Except String Bool,
      List.filter (fun c => !(OPTIONAL_CHECKS.contains c.name)) [amdsEntry x] = [] := by
    intro x
    have hx : (amdsEntry x).name ∈ OPTIONAL_CHECKS := by
      rw [amdsEntry_name]; simp [OPTIONAL_CHECKS]
    simp [List.filter, hx]
  have hdev : ∀ d : Option (Option String × Option String),
      List.filter (fun c => !(OPTIONAL_CHECKS.contains c.name)) [deviceInfoEntry udid d] = [] := by
    intro d
    have hd : (deviceInfoEntry udid d).name ∈ OPTIONAL_CHECKS := by
      simp [deviceInfoEntry, OPTIONAL_CHECKS]
    simp [List.filter, hd]
  unfold preflightEntries
  rw [show ({ env with amds := a, deviceInfo := di } : PreflightEnv).ipsw = env.ipsw from rfl,
    show ({ env with amds := a, deviceInfo := di } : PreflightEnv).haveIdevicerestore =
      env.haveIdevicerestore from rfl,
    show ({ env with amds := a, deviceInfo := di } : PreflightEnv).diskFree = env.diskFree from rfl,
    show ({ env with amds := a, deviceInfo := di } : PreflightEnv).amds = a from rfl,
    show ({ env with amds := a, deviceInfo := di } : PreflightEnv).deviceInfo = di from rfl]
  simp only [List.filter_append, hamds, hdev]

/-- Claim C6: the aggregate `ok` is the conjunction of the REQUIRED check
outcomes only, `errors` lists exactly one `{name, message}` entry per failed
REQUIRED check, and replacing the outcomes of the OPTIONAL probes
(`amds_running`, `device_info`) never changes the aggregate. -/
theorem claim_C6_preflight (env : PreflightEnv) (udid ipswPath : Option String)
    (minDiskGb : Nat) :
    ((preflight_checks env udid ipswPath minDiskGb).ok = true ↔
      ∀ c ∈ (preflight_checks env udid ipswPath minDiskGb).checks,
        c.name ∈ OPTIONAL_CHECKS ∨ c.ok = true) ∧
    ((preflight_checks env udid ipswPath minDiskGb).errors =
      ((preflight_checks env udid ipswPath minDiskGb).checks.filter
        (fun c => !c.ok && !(OPTIONAL_CHECKS.contains c.name))).map
        (fun c => ⟨c.name, checkMessage c⟩)) ∧
    (∀ a di,
      (preflight_checks { env with amds := a, deviceInfo := di } udid ipswPath minDiskGb).ok =
        (preflight_checks env udid ipswPath minDiskGb).ok) := by
  refine ⟨?_, ?_, ?_⟩
  · rw [preflight_ok_eq, preflight_checks_eq_entries]
    simp only [List.all_eq_true, List.mem_filter]
    constructor
    · intro h c hc
      by_cases hm : c.name ∈ OPTIONAL_CHECKS
      · exact Or.inl hm
      · exact Or.inr (h c ⟨hc, by simp [hm]⟩)
    · intro h c hc
      rcases h c hc.1 with hm | hok
      · exfalso
        have hf := hc.2
        simp [hm] at hf
      · exact hok
  · rw [preflight_checks_eq_entries]
    show (List.foldl addCheck ⟨[], []⟩ (preflightEntries env udid ipswPath minDiskGb)).errors = _
    rw [foldl_addCheck_errors]
    rfl
  · intro a di
    rw [preflight_ok_eq, preflight_ok_eq, preflight_required_indep]

/-! ### Claim C2: target resolution -/

/-- Inserting into the sorted list is a permutation of consing. -/
theorem insertSorted_perm (s : String) (l : List String) :
    (insertSorted s l).Perm (s :: l) := by
  induction l with
  | nil => simp [insertSorted]
  | cons t ts ih =>
      unfold insertSorted
      by_cases h : strLt s t = true
      · rw [if_pos h]
      · rw [if_neg h]
        exact (ih.cons t).trans (List.Perm.swap s t ts)

/-- `sortStrings` permutes its input. -/
theorem sortStrings_perm (l : List String) : (sortStrings l).Perm l := by
  induction l with
  | nil => simp [sortStrings]
  | cons s ts ih =>
      show (insertSorted s (sortStrings ts)).Perm (s :: ts)
      exact (insertSorted_perm s (sortStrings ts)).trans (ih.cons s)

/-- Claim C2: resolution without an explicit identifier.  Zero candidates
raise `NoDevicesError` (or `DeviceToolMissingError` when no backend was
usable); exactly one candidate behaves exactly like an explicit call with
that candidate's identifier; two or more raise `MultipleDevicesError` whose
payload is `sorted(udids)` — a permutation of the candidate identifiers —
and no candidate is picked. -/
theorem claim_C2_resolution (env : DeviceEnv) :
    (env.discovered = [] → (env.missingTools = [] ∨ env.anyTool = true) →
      get_info env none true = .error .noDevices) ∧
    (env.discovered = [] → env.missingTools ≠ [] → env.anyTool = false →
      get_info env none true = .error (.toolMissing (sortedUnique env.missingTools))) ∧
    (∀ e, env.discovered = [e] →
      get_info env none true = get_info env (some e.udid) false) ∧
    (2 ≤ env.discovered.length →
      get_info env none true =
        .error (.multipleDevices (sortStrings (env.discovered.map (·.udid)))) ∧
      (sortStrings (env.discovered.map (·.udid))).Perm (env.discovered.map (·.udid))) := by
  refine ⟨?_, ?_, ?_, ?_⟩
  · intro hd hmt
    unfold get_info resolveTargetUdid
    rw [hd]
    rcases hmt with hmt | hmt
    · simp [hmt]
    · simp [hmt]
  · intro hd hmt hat
    unfold get_info resolveTargetUdid
    rw [hd]
    have hmt' : (env.missingTools != []) = true := by simpa using hmt
    simp [hmt', hat]
  · intro e hd
    unfold get_info resolveTargetUdid
    rw [hd]
    simp
  · intro hlen
    refine ⟨?_, sortStrings_perm _⟩
    match hd : env.discovered with
    | [] => rw [hd] at hlen; simp at hlen
    | [e] => rw [hd] at hlen; simp at hlen
    | e1 :: e2 :: es =>
        unfold get_info resolveTargetUdid
        rw [hd]
        simp

/-- Witness for claim C2: two candidates raise `MultipleDevicesError` with
the sorted payload; zero candidates (with a usable backend) raise
`NoDevicesError`. -/
theorem claim_C2_witness :
    get_info envTwoCandidates none true = .error (.multipleDevices ["A", "B"]) ∧
    get_info envZeroCandidates none true = .error .noDevices := by
  constructor
  · have h := ((claim_C2_resolution envTwoCandidates).2.2.2 (by decide)).1
    rw [h]
    rfl
  · exact (claim_C2_resolution envZeroCandidates).1 rfl (Or.inl rfl)

/-! ### Claim C9: the result is fully populated on every exit path -/

/-- The composed log path is never the empty string. -/
theorem compose_log_path_ne_empty (u d : Option String) (t : String) :
    _compose_log_path u d t ≠ "" := by
  unfold _compose_log_path
  intro h
  have hlen := congrArg String.length h
  simp only [String.length_append] at hlen
  have h4 : (String.length ".log") = 4 := rfl
  have h0 : (String.length "") = 0 := rfl
  omega

/-- Claim C9: on every exit path of `restore` — the unsupported latest path,
failed preflight, `preflight_only`, `dry_run`, spawn failure, timeout and
normal completion — the result carries the composed (non-empty) log path and
both clock observations; `durationSec` is an integer by construction of
`RestoreResult`. -/
theorem claim_C9_result_populated (env : RestoreEnv) (args : RestoreArgs) :
    (restore env args).logfile = _compose_log_path args.udid args.logDir env.timestamp ∧
    (restore env args).logfile ≠ "" ∧
    (restore env args).startedAt = env.startedAt ∧
    (restore env args).finishedAt = env.finishedAt := by
  unfold restore _build_result
  cases hl : args.latest <;>
    cases hpo : args.preflightOnly <;>
      cases hok : (preflight_checks env.pf args.udid args.ipswPath).ok <;>
        cases hdr : args.dryRun <;>
          cases hsp : env.proc.spawn <;>
            simp [hl, hpo, hok, hdr, hsp, runPhase, _build_result,
              compose_log_path_ne_empty]

/-! ### Claim C8: dry run -/

/-- Claim C8: with a passing preflight, `dry_run=True` finalizes success
with a `compose_cmd` step holding the exact composed argument list (joined
with spaces, deterministic from the wipe flag, optional identifier, and
trailing artifact path), and the result is independent of the child-process
environment — nothing is spawned. -/
theorem claim_C8_dry_run (env : RestoreEnv) (args : RestoreArgs)
    (hl : args.latest = false)
    (hok : (preflight_checks env.pf args.udid args.ipswPath).ok = true)
    (hpo : args.preflightOnly = false)
    (hdr : args.dryRun = true) :
    (restore env args).status = .success ∧
    (⟨"compose_cmd", true,
        some (pyJoin " " (_compose_command args.udid (args.ipswPath.getD "") args.wipe))⟩ : Step)
      ∈ (restore env args).steps ∧
    (∀ p : ProcEnv, restore { env with proc := p } args = restore env args) := by
  refine ⟨?_, ?_, ?_⟩
  · simp [restore, _build_result, hl, hpo, hdr, hok]
  · simp [restore, _build_result, hl, hpo, hdr, hok]
  · intro p
    simp [restore, _build_result, hl, hpo, hdr, hok]

/-- Witness for claim C8: a concrete dry run finalizes success and records
the composed command `idevicerestore -w fw.ipsw`. -/
theorem claim_C8_witness :
    (restore restoreDryEnv argsDryRun).status = .success ∧
    (⟨"compose_cmd", true, some "idevicerestore -w fw.ipsw"⟩ : Step)
      ∈ (restore restoreDryEnv argsDryRun).steps := by
  have h := claim_C8_dry_run restoreDryEnv argsDryRun rfl (by decide) rfl rfl
  refine ⟨h.1, ?_⟩
  have h2 := h.2.1
  have hj : pyJoin " "
      (_compose_command argsDryRun.udid (argsDryRun.ipswPath.getD "") argsDryRun.wipe) =
      "idevicerestore -w fw.ipsw" := by decide
  rw [hj] at h2
  exact h2

/-! ### Claim C5: per-candidate listing -/

/-- Resolution never raises a non-`DeviceError` exception. -/
theorem resolveTargetUdid_not_attr (env : DeviceEnv) (u : Option String) (a : Bool)
    (m : String) : resolveTargetUdid env u a ≠ .error (.attributeError m) := by
  unfold resolveTargetUdid
  intro h
  repeat' split at h
  all_goals simp_all

/-- The detail fetch never raises a non-`DeviceError` exception. -/
theorem getInfoFetch_not_attr (env : DeviceEnv) (u? : Option String) (m : String) :
    getInfoFetch env u? ≠ .error (.attributeError m) := by
  intro h
  unfold getInfoFetch at h
  by_cases ht : optStrTruthy u? = true
  · simp only [ht, Bool.not_true, Bool.false_eq_true, if_false] at h
    cases hp : (env.pymdInfo (u?.getD "")).getD [] with
    | cons x xs => simp [hp] at h
    | nil =>
        cases hq : (_get_info_via_ideviceinfo env (some (u?.getD ""))).getD [] with
        | cons y ys => simp [hp, hq] at h
        | nil =>
            by_cases hi : env.haveIdeviceinfo = true
            · simp [hp, hq, hi] at h
            · simp [hp, hq, hi] at h
  · have ht' : optStrTruthy u? = false := by simpa using ht
    simp [ht'] at h

/-- `get_info` never raises a non-`DeviceError` exception, so the
`except DeviceError` clauses of `list_devices` cover every failure. -/
theorem get_info_not_attr (env : DeviceEnv) (u : Option String) (a : Bool) (m : String) :
    get_info env u a ≠ .error (.attributeError m) := by
  unfold get_info
  cases hres : resolveTargetUdid env u a with
  | error e =>
      intro h
      simp only [] at h
      have he : e = .attributeError m := by simpa using h
      subst he
      exact resolveTargetUdid_not_attr env u a m hres
  | ok u? =>
      simpa using getInfoFetch_not_attr env u? m

/-- When no candidate's fetch fails with `DeviceToolMissingError`, the loop
degrades failed entries and returns one device per candidate, collecting no
missing tools. -/
theorem listLoop_no_toolmissing (env : DeviceEnv) :
    ∀ (l : List DiscEntry) (devs : List Device) (tools : List String),
      (∀ e ∈ l, isToolMissingRes (get_info env (some e.udid) false) = false) →
      listLoop env l devs tools = .ok (devs ++ l.map (entryResult env), tools) := by
  intro l
  induction l with
  | nil => intro devs tools _; simp [listLoop]
  | cons e rest ih =>
      intro devs tools h
      have hrest : ∀ x ∈ rest, isToolMissingRes (get_info env (some x.udid) false) = false :=
        fun x hx => h x (List.mem_cons_of_mem e hx)
      have hhead := h e (List.mem_cons_self e rest)
      cases hg : get_info env (some e.udid) false with
      | ok info =>
          have hstep : listLoop env (e :: rest) devs tools =
              listLoop env rest (devs ++ [connectionPatch e info]) tools := by
            simp only [listLoop]
            rw [hg]
          rw [hstep, ih (devs ++ [connectionPatch e info]) tools hrest]
          simp [entryResult, hg]
      | error err =>
          cases err with
          | toolMissing ts =>
              rw [hg] at hhead
              simp [isToolMissingRes] at hhead
          | attributeError m => exact absurd hg (get_info_not_attr env (some e.udid) false m)
          | noDevices =>
              have hstep : listLoop env (e :: rest) devs tools =
                  listLoop env rest (devs ++ [bareDevice e]) tools := by
                simp only [listLoop]
                rw [hg]
              rw [hstep, ih (devs ++ [bareDevice e]) tools hrest]
              simp [entryResult, hg]
          | multipleDevices us =>
              have hstep : listLoop env (e :: rest) devs tools =
                  listLoop env rest (devs ++ [bareDevice e]) tools := by
                simp only [listLoop]
                rw [hg]
              rw [hstep, ih (devs ++ [bareDevice e]) tools hrest]
              simp [entryResult, hg]
          | deviceError msg k =>
              have hstep : listLoop env (e :: rest) devs tools =
                  listLoop env rest (devs ++ [bareDevice e]) tools := by
                simp only [listLoop]
                rw [hg]
              rw [hstep, ih (devs ++ [bareDevice e]) tools hrest]
              simp [entryResult, hg]

/-- Claim C5 (amended): when no candidate's detail fetch fails with a
missing-tool error, `list_devices` returns exactly one entry per candidate,
and a fetch failure degrades that entry to the bare `id + connection`
record.  (When some fetch does fail with `DeviceToolMissingError`, the loop
still processes every candidate but `list_devices` then raises
`DeviceToolMissingError` — see the counterexample.) -/
theorem claim_C5_listing (env : DeviceEnv)
    (hne : env.discovered ≠ [])
    (hfetch : ∀ e ∈ env.discovered,
      isToolMissingRes (get_info env (some e.udid) false) = false) :
    list_devices env false = .ok (env.discovered.map (entryResult env)) ∧
    (env.discovered.map (entryResult env)).length = env.discovered.length ∧
    (∀ e ∈ env.discovered, ∀ err, get_info env (some e.udid) false = .error err →
      entryResult env e = bareDevice e) := by
  refine ⟨?_, by simp, ?_⟩
  · unfold list_devices
    have hne' : (env.discovered == []) = false := by simpa using hne
    rw [hne']
    simp only [Bool.false_eq_true, if_false]
    rw [listLoop_no_toolmissing env env.discovered [] [] hfetch]
    simp
  · intro e _ err herr
    simp [entryResult, herr]

/-- Claim C5 counterexample: when the per-candidate detail fetch fails with
`DeviceToolMissingError`, `list_devices` raises instead of returning the
degraded list — contradicting "never causes the whole listing call to abort
or raise". -/
theorem claim_C5_counterexample :
    list_devices envToolMissing false = .error (.toolMissing ["ideviceinfo"]) ∧
    ∀ l, list_devices envToolMissing false ≠ .ok l := by
  have h : list_devices envToolMissing false = .error (.toolMissing ["ideviceinfo"]) := by decide
  refine ⟨h, ?_⟩
  intro l hl
  rw [h] at hl
  exact Except.noConfusion hl

/-- Witness for claim C5 (amended): the mixed environment lists both
candidates, and the failed candidate's entry is the bare record. -/
theorem claim_C5_witness :
    list_devices envMixedFetch false = .ok (envMixedFetch.discovered.map (entryResult envMixedFetch)) ∧
    entryResult envMixedFetch ⟨"B", some "usb"⟩ = bareDevice ⟨"B", some "usb"⟩ := by
  have h := claim_C5_listing envMixedFetch (by decide) (by decide)
  refine ⟨h.1, ?_⟩
  exact h.2.2 ⟨"B", some "usb"⟩ (by decide)
    (.deviceError ("Konnte keine Informationen fuer B abrufen.") 6) (by decide)

/-! ### Claim C1: status iff terminal step ok and no timeout -/

/-- The name of the disk entry, in both branches. -/
theorem diskEntry_name (m : Nat) (x : Except String Nat) :
    (diskEntry m x).name = "disk_free_gb" := by
  cases x <;> rfl

/-- The names of the IPSW entries. -/
theorem ipswEntries_name (fs : IpswEnv) (i : Option String) :
    ∀ c ∈ ipswEntries fs i, c.name = "ipsw_exists" ∨ c.name = "ipsw_validated" := by
  intro c hc
  cases i with
  | none =>
      simp [ipswEntries] at hc
      subst hc
      exact Or.inl rfl
  | some p =>
      simp only [ipswEntries] at hc
      by_cases hE : fs.pathExists = true
      · rw [if_pos hE] at hc
        simp at hc
        rcases hc with rfl | rfl
        · exact Or.inl rfl
        · exact Or.inr rfl
      · rw [if_neg hE] at hc
        simp at hc
        rcases hc with rfl | rfl
        · exact Or.inl rfl
        · exact Or.inr rfl

/-- Every preflight check entry carries one of the six fixed check names. -/
theorem preflightEntries_name_mem (env : PreflightEnv) (u i : Option String) (m : Nat) :
    ∀ c ∈ preflightEntries env u i m,
      c.name = "check_idevicerestore" ∨ c.name = "ipsw_exists" ∨
      c.name = "ipsw_validated" ∨ c.name = "disk_free_gb" ∨
      c.name = "amds_running" ∨ c.name = "device_info" := by
  intro c hc
  unfold preflightEntries at hc
  simp only [List.append_assoc, List.mem_append, List.mem_singleton, List.mem_cons,
    List.not_mem_nil, or_false] at hc
  rcases hc with rfl | hc | rfl | rfl | rfl
  · exact Or.inl rfl
  · rcases ipswEntries_name env.ipsw i c hc with h | h
    · exact Or.inr (Or.inl h)
    · exact Or.inr (Or.inr (Or.inl h))
  · exact Or.inr (Or.inr (Or.inr (Or.inl (diskEntry_name m env.diskFree))))
  · exact Or.inr (Or.inr (Or.inr (Or.inr (Or.inl (amdsEntry_name env.amds)))))
  · exact Or.inr (Or.inr (Or.inr (Or.inr (Or.inr rfl))))

/-- No preflight-phase step is named "timeout". -/
theorem preflightSteps_no_timeout (env : PreflightEnv) (u i : Option String) :
    ∀ st ∈ preflightSteps env u i, st.name ≠ "timeout" := by
  intro st hst
  unfold preflightSteps at hst
  simp only [List.mem_append, List.mem_map, List.mem_singleton] at hst
  rcases hst with ⟨c, hc, rfl⟩ | rfl
  · rw [preflight_checks_eq_entries] at hc
    rcases preflightEntries_name_mem env u i 10 c hc with h | h | h | h | h | h <;>
      simp [h]
  · simp

/-- The inner pattern fold only adds steps named after the pattern table,
with `ok = true`. -/
theorem fireFold_mem_names (line : String) :
    ∀ (ns : List String) (fired : List Step),
      ∀ st ∈ ns.foldl
        (fun fired nm =>
          if (fired.map (·.name)).contains nm then fired
          else if stepPatternMatches nm line then fired ++ [⟨nm, true, none⟩]
          else fired)
        fired,
        st ∈ fired ∨ (st.name ∈ ns ∧ st.ok = true) := by
  intro ns
  induction ns with
  | nil => intro fired st hst; exact Or.inl hst
  | cons nm ns ih =>
      intro fired st hst
      simp only [List.foldl_cons] at hst
      by_cases hc : (fired.map (·.name)).contains nm
      · rw [if_pos hc] at hst
        rcases ih fired st hst with h | ⟨h1, h2⟩
        · exact Or.inl h
        · exact Or.inr ⟨List.mem_cons_of_mem _ h1, h2⟩
      · rw [if_neg hc] at hst
        by_cases hm : stepPatternMatches nm line = true
        · rw [if_pos hm] at hst
          rcases ih _ st hst with h | ⟨h1, h2⟩
          · rcases List.mem_append.mp h with h' | h'
            · exact Or.inl h'
            · simp at h'
              subst h'
              exact Or.inr ⟨List.mem_cons_self _ _, rfl⟩
          · exact Or.inr ⟨List.mem_cons_of_mem _ h1, h2⟩
        · rw [if_neg hm] at hst
          rcases ih fired st hst with h | ⟨h1, h2⟩
          · exact Or.inl h
          · exact Or.inr ⟨List.mem_cons_of_mem _ h1, h2⟩

/-- Every extracted milestone step is named after the pattern table and has
`ok = true`. -/
theorem extractSteps_names (lines : List String) :
    ∀ st ∈ extractSteps lines, st.name ∈ STEP_PATTERN_NAMES ∧ st.ok = true := by
  suffices h : ∀ (lines : List String) (fired : List Step),
      (∀ st ∈ fired, st.name ∈ STEP_PATTERN_NAMES ∧ st.ok = true) →
      ∀ st ∈ lines.foldl lineFire fired, st.name ∈ STEP_PATTERN_NAMES ∧ st.ok = true by
    intro st hst
    exact h lines [] (by simp) st hst
  intro lines
  induction lines with
  | nil => intro fired h st hst; exact h st hst
  | cons line rest ih =>
      intro fired h st hst
      simp only [List.foldl_cons] at hst
      refine ih (lineFire fired line) ?_ st hst
      intro st' hst'
      unfold lineFire at hst'
      rcases fireFold_mem_names line STEP_PATTERN_NAMES fired st' hst' with h' | ⟨h1, h2⟩
      · exact h st' h'
      · exact ⟨h1, h2⟩

/-- `runPhase` on the timeout path: `rc` stays 1, the "timeout" step is
appended, the terminal step fails, the status is failure. -/
theorem runPhase_eq_timeout (env : RestoreEnv) (args : RestoreArgs) (steps1 : List Step)
    (logPath : String)
    (h : ((match args.timeoutSec with
           | some n => n != 0
           | none => false) && env.proc.timesOut) = true) :
    runPhase env args steps1 logPath =
      _build_result .failure args.udid args.ipswPath args.wipe
        (steps1 ++ extractSteps env.proc.outputLines
          ++ [⟨"timeout", false, some (toString (args.timeoutSec.getD 0) ++ "s")⟩]
          ++ [⟨"idevicerestore", false, some ("rc=" ++ toString (1 : Int))⟩])
        logPath env.startedAt env.finishedAt (Int.ofNat env.proc.elapsed) := by
  unfold runPhase
  simp [h, _build_result]

/-- `runPhase` when the timeout does not fire: `rc` is the exit code and the
status follows it. -/
theorem runPhase_eq_normal (env : RestoreEnv) (args : RestoreArgs) (steps1 : List Step)
    (logPath : String)
    (h : ((match args.timeoutSec with
           | some n => n != 0
           | none => false) && env.proc.timesOut) = false) :
    runPhase env args steps1 logPath =
      _build_result (if env.proc.exitCode = 0 then .success else .failure)
        args.udid args.ipswPath args.wipe
        (steps1 ++ extractSteps env.proc.outputLines
          ++ [⟨"idevicerestore", decide (env.proc.exitCode = 0),
               some ("rc=" ++ toString env.proc.exitCode)⟩])
        logPath env.startedAt env.finishedAt (Int.ofNat env.proc.elapsed) := by
  unfold runPhase
  simp [h, _build_result]

/-- The core of claim C1, stated on the post-spawn phase: the status is
success iff the terminal step (named for the restore tool) is ok and no
"timeout" step is present; and whenever the truthy timeout elapses first,
the run finalizes failure with a failed "timeout" step and a failed
terminal step. -/
theorem runPhase_claim (env : RestoreEnv) (args : RestoreArgs) (steps1 : List Step)
    (logPath : String) (h1 : ∀ st ∈ steps1, st.name ≠ "timeout") :
    (((runPhase env args steps1 logPath).status = .success) ↔
      ((∃ st, (runPhase env args steps1 logPath).steps.getLast? = some st ∧
          st.name = "idevicerestore" ∧ st.ok = true) ∧
        (∀ st ∈ (runPhase env args steps1 logPath).steps, st.name ≠ "timeout"))) ∧
    (∀ n, args.timeoutSec = some n → n ≠ 0 → env.proc.timesOut = true →
      (runPhase env args steps1 logPath).status = .failure ∧
      (∃ st ∈ (runPhase env args steps1 logPath).steps, st.name = "timeout" ∧ st.ok = false) ∧
      (∃ st, (runPhase env args steps1 logPath).steps.getLast? = some st ∧
        st.name = "idevicerestore" ∧ st.ok = false)) := by
  cases hq : ((match args.timeoutSec with
               | some n => n != 0
               | none => false) && env.proc.timesOut) with
  | true =>
      rw [runPhase_eq_timeout env args steps1 logPath hq]
      constructor
      · constructor
        · intro hs
          exact absurd hs (by simp [_build_result])
        · rintro ⟨-, hall⟩
          exfalso
          refine hall ⟨"timeout", false, some (toString (args.timeoutSec.getD 0) ++ "s")⟩ ?_ rfl
          simp [_build_result]
      · intro n hn hn0 hto
        refine ⟨rfl, ?_, ?_⟩
        · exact ⟨⟨"timeout", false, some (toString (args.timeoutSec.getD 0) ++ "s")⟩,
            by simp [_build_result], rfl, rfl⟩
        · refine ⟨⟨"idevicerestore", false, some ("rc=" ++ toString (1 : Int))⟩, ?_, rfl, rfl⟩
          simp [_build_result]
  | false =>
      rw [runPhase_eq_normal env args steps1 logPath hq]
      have hnt : ∀ st ∈ (steps1 ++ extractSteps env.proc.outputLines
          ++ [⟨"idevicerestore", decide (env.proc.exitCode = 0),
               some ("rc=" ++ toString env.proc.exitCode)⟩]), st.name ≠ "timeout" := by
        intro st hst
        rcases List.mem_append.mp hst with h2 | h2
        · rcases List.mem_append.mp h2 with h3 | h3
          · exact h1 st h3
          · have hmem := (extractSteps_names env.proc.outputLines st h3).1
            intro hname
            rw [hname] at hmem
            exact absurd hmem (by decide)
        · simp at h2
          subst h2
          simp
      constructor
      · by_cases hc0 : env.proc.exitCode = 0
        · constructor
          · intro _
            refine ⟨⟨⟨"idevicerestore", decide (env.proc.exitCode = 0),
                some ("rc=" ++ toString env.proc.exitCode)⟩, ?_, rfl, by simp [hc0]⟩, ?_⟩
            · simp [_build_result]
            · intro st hst
              exact hnt st (by simpa [_build_result] using hst)
          · intro _
            simp [_build_result, hc0]
        · constructor
          · intro hs
            exfalso
            simp [_build_result, hc0] at hs
          · rintro ⟨⟨st, hlast, hname, hok⟩, -⟩
            exfalso
            have hst : st = ⟨"idevicerestore", decide (env.proc.exitCode = 0),
                some ("rc=" ++ toString env.proc.exitCode)⟩ := by
              have := hlast
              simp [_build_result] at this
              exact this.symm
            rw [hst] at hok
            simp at hok
            exact hc0 hok
      · intro n hn hn0 hto
        exfalso
        rw [hn, hto] at hq
        simp at hq
        exact hn0 hq

/-- On the post-spawn path, `restore` is exactly the run phase applied to
the preflight steps and the composed log path. -/
theorem restore_run_eq (env : RestoreEnv) (args : RestoreArgs)
    (hl : args.latest = false)
    (hok : (preflight_checks env.pf args.udid args.ipswPath).ok = true)
    (hpo : args.preflightOnly = false)
    (hdr : args.dryRun = false)
    (hsp : env.proc.spawn = .ok ()) :
    restore env args =
      runPhase env args (preflightSteps env.pf args.udid args.ipswPath)
        (_compose_log_path args.udid args.logDir env.timestamp) := by
  unfold restore
  simp [hl, hok, hpo, hdr, hsp]

/-- Claim C1: for every result produced after the child process was spawned,
status = success iff the terminal step named "idevicerestore" has ok = true
and no step named "timeout" is present; and whenever the caller-supplied
truthy timeout elapses before the process exits, the result is a failure
carrying a failed "timeout" step and a failed terminal step — regardless of
the process's exit code. -/
theorem claim_C1_status (env : RestoreEnv) (args : RestoreArgs)
    (hl : args.latest = false)
    (hok : (preflight_checks env.pf args.udid args.ipswPath).ok = true)
    (hpo : args.preflightOnly = false)
    (hdr : args.dryRun = false)
    (hsp : env.proc.spawn = .ok ()) :
    (((restore env args).status = .success) ↔
      ((∃ st, (restore env args).steps.getLast? = some st ∧
          st.name = "idevicerestore" ∧ st.ok = true) ∧
        (∀ st ∈ (restore env args).steps, st.name ≠ "timeout"))) ∧
    (∀ n, args.timeoutSec = some n → n ≠ 0 → env.proc.timesOut = true →
      (restore env args).status = .failure ∧
      (∃ st ∈ (restore env args).steps, st.name = "timeout" ∧ st.ok = false) ∧
      (∃ st, (restore env args).steps.getLast? = some st ∧
        st.name = "idevicerestore" ∧ st.ok = false)) := by
  rw [restore_run_eq env args hl hok hpo hdr hsp]
  exact runPhase_claim env args (preflightSteps env.pf args.udid args.ipswPath)
    (_compose_log_path args.udid args.logDir env.timestamp)
    (preflightSteps_no_timeout env.pf args.udid args.ipswPath)

/-- Witness for claim C1: with the timeout elapsing first and exit code 0,
the run finalizes failure with a failed "timeout" step and a failed
terminal step. -/
theorem claim_C1_witness :
    (restore restoreTimeoutEnv argsTimeout).status = .failure ∧
    (∃ st ∈ (restore restoreTimeoutEnv argsTimeout).steps,
      st.name = "timeout" ∧ st.ok = false) ∧
    (∃ st, (restore restoreTimeoutEnv argsTimeout).steps.getLast? = some st ∧
      st.name = "idevicerestore" ∧ st.ok = false) := by
  have h := claim_C1_status restoreTimeoutEnv argsTimeout rfl (by decide) rfl rfl rfl
  exact h.2 30 rfl (by decide) rfl
